import Mathlib

set_option linter.unusedVariables false

/-!
Verification of the TaskFlow (ToDoAPI) frontend source.

This file shallowly embeds the client-side code of the repository —
the API layer (`services/api.ts`), the auth context (`AuthContext.tsx`),
the app-level task handlers (`App.tsx`), and the page components
(`AdminPage.tsx`, `HomePage.tsx`, `StatusBadge.tsx` / `TaskFormModal`) —
and proves the specification's claims about them.

Modelling conventions:
* JavaScript objects with string keys (headers, `localStorage`) are
  association lists, with assignment replacing any earlier binding
  (`objSet`), and property reads returning `Option String` (`objGet`).
* Nullable strings are `Option String`; JS truthiness of a nullable
  string (`if (x)`, `x || y`) is explicit: `none` and `some ""` are falsy.
* JS string comparison (`<`, `>`) is the lexicographic order on `String`;
  for the ASCII date strings compared by the form validator this agrees
  with the UTF-16 code-unit order JS uses.
* Network effects are made visible as a list of performed fetch calls,
  returned alongside the new state.
-/

namespace TaskFlow

/-- The task status union type `TaskStatus` of `App.tsx`:
`'todo' | 'in-progress' | 'done' | 'blocked'`. -/
inductive TaskStatus where
  | todo
  | inProgress
  | done
  | blocked
  deriving DecidableEq, Fintype

/-- The task priority union type `TaskPriority` of `App.tsx`:
`'low' | 'medium' | 'high'`. -/
inductive TaskPriority where
  | low
  | medium
  | high
  deriving DecidableEq, Fintype

/-- The lucide-react icons used by `StatusBadge.getStatusConfig`. -/
inductive Icon where
  | circle
  | clock
  | checkCircle2
  | alertCircle
  deriving DecidableEq

/-- The record returned by `StatusBadge.getStatusConfig`. -/
structure StatusConfig where
  icon : Icon
  label : String
  className : String
  deriving DecidableEq

/-- `StatusBadge.getStatusConfig` (StatusBadge.tsx): the switch over the
four status values. The switch has a case for every constructor, so the
function is total. -/
def getStatusConfig : TaskStatus → StatusConfig
  | .todo =>
    { icon := .circle, label := "To Do", className := "bg-gray-100 text-gray-700" }
  | .inProgress =>
    { icon := .clock, label := "In Progress", className := "bg-blue-100 text-blue-700" }
  | .done =>
    { icon := .checkCircle2, label := "Done", className := "bg-green-100 text-green-700" }
  | .blocked =>
    { icon := .alertCircle, label := "Blocked", className := "bg-red-100 text-red-700" }

/-- The four status constructors, in source order. -/
def allStatuses : List TaskStatus :=
  [.todo, .inProgress, .done, .blocked]

/-- C8: `getStatusConfig` yields a defined configuration for every status
(the switch covers the whole enumeration: `allStatuses` exhausts
`TaskStatus`), and the four statuses map to the four pairwise distinct
labels "To Do", "In Progress", "Done", "Blocked". -/
theorem c8_statusBadge_total_and_distinct :
    (∀ s : TaskStatus, s ∈ allStatuses) ∧
    allStatuses.map (fun s => (getStatusConfig s).label) =
      ["To Do", "In Progress", "Done", "Blocked"] ∧
    (allStatuses.map (fun s => (getStatusConfig s).label)).Nodup := by
  refine ⟨fun s => ?_, by decide, by decide⟩
  cases s <;> decide

/-! ## AdminPage (AdminPage.tsx)

Each rendered user row has a role-toggle button with
`disabled={isCurrentUser}` and a delete button with
`disabled={isCurrentUser || deletingUserId === user.id}`, where
`isCurrentUser` is `user.id === currentUserId`. A disabled button never
fires its `onClick`, so no admin request is issued from it. -/

/-- The `disabled` attribute of the role-toggle button of the row for
`userId`, as rendered by `AdminPage` for the admin `currentUserId`. -/
def toggleDisabled (currentUserId userId : Nat) : Bool :=
  userId == currentUserId

/-- The `disabled` attribute of the delete button of the row for `userId`:
disabled for the requester's own row and while a deletion of that row's
user is in flight (`deletingUserId === user.id`). -/
def deleteDisabled (currentUserId userId : Nat) (deletingUserId : Option Nat) : Bool :=
  userId == currentUserId || deletingUserId == some userId

/-- The admin mutations the dashboard can issue (`adminAPI.toggleAdminRole`
and `adminAPI.deleteUser`), tagged with their target user id. -/
inductive AdminRequest where
  | deleteUser (targetId : Nat)
  | toggleRole (targetId : Nat)
  deriving DecidableEq

/-- Clicking the role-toggle button of the row for `userId`: a disabled
button issues nothing; an enabled one calls `handleToggleAdmin(user.id)`. -/
def clickToggleAdmin (currentUserId userId : Nat) : Option AdminRequest :=
  if toggleDisabled currentUserId userId then none
  else some (.toggleRole userId)

/-- Clicking the delete button of the row for `userId`: a disabled button
issues nothing; an enabled one calls `handleDeleteUser(user.id)`. -/
def clickDeleteUser (currentUserId userId : Nat) (deletingUserId : Option Nat) :
    Option AdminRequest :=
  if deleteDisabled currentUserId userId deletingUserId then none
  else some (.deleteUser userId)

/-- C1 counterexample: the claim says both buttons are enabled on every
row whose id differs from the requester's, but while a deletion of user 2
is in flight (`deletingUserId = some 2`) the delete button of row 2 is
disabled for admin 1 even though 2 ≠ 1. -/
theorem c1_admin_buttons_counterexample :
    (2 : Nat) ≠ 1 ∧ deleteDisabled 1 2 (some 2) = true := by
  decide

/-- C1 (amended): on the requester's own row both buttons are disabled and
neither click issues a request, so no delete-user or toggle-role request
ever targets the requester; on any other row the role-toggle button is
enabled, and the delete button is enabled unless a deletion of that row's
user is already in flight. -/
theorem c1_admin_buttons (cur uid : Nat) (deleting : Option Nat) :
    (toggleDisabled cur uid = true ↔ uid = cur) ∧
    (deleteDisabled cur uid deleting = true ↔ (uid = cur ∨ deleting = some uid)) ∧
    clickToggleAdmin cur cur = none ∧
    clickDeleteUser cur cur deleting = none ∧
    (∀ r : AdminRequest,
      clickToggleAdmin cur uid = some r ∨ clickDeleteUser cur uid deleting = some r →
      r ≠ .toggleRole cur ∧ r ≠ .deleteUser cur) := by
  refine ⟨?_, ?_, ?_, ?_, ?_⟩
  · simp [toggleDisabled]
  · simp [deleteDisabled]
  · simp [clickToggleAdmin, toggleDisabled]
  · simp [clickDeleteUser, deleteDisabled]
  · intro r hr
    rcases hr with h | h
    · rw [clickToggleAdmin] at h
      split at h
      · exact absurd h (by simp)
      · rename_i hdis
        simp only [toggleDisabled, beq_iff_eq] at hdis
        cases h
        exact ⟨by simpa using hdis, by simp⟩
    · rw [clickDeleteUser] at h
      split at h
      · exact absurd h (by simp)
      · rename_i hdis
        simp only [deleteDisabled, Bool.or_eq_true, beq_iff_eq] at hdis
        push_neg at hdis
        cases h
        exact ⟨by simp, by simpa using hdis.1⟩

/-- C1 witness: admin 1 clicking the toggle button on user 2's row issues
a request that does not target user 1. -/
theorem c1_admin_buttons_witness :
    AdminRequest.toggleRole 2 ≠ AdminRequest.toggleRole 1 ∧
    AdminRequest.toggleRole 2 ≠ AdminRequest.deleteUser 1 :=
  (c1_admin_buttons 1 2 none).2.2.2.2 (AdminRequest.toggleRole 2) (Or.inl (by decide))

/-! ## JS object / Web Storage model

Headers objects, `localStorage`, and other string-keyed JS records are
association lists; assignment (`obj[k] = v`, `setItem`) replaces any
earlier binding for the key, property read is `objGet`, and
`removeItem` / `delete` is `objRemove`. -/

/-- Assignment `o[k] = v`: any earlier binding of `k` is replaced. -/
def objSet (o : List (String × String)) (k v : String) : List (String × String) :=
  o.filter (fun p => p.1 != k) ++ [(k, v)]

/-- `delete o[k]` / `removeItem(k)`. -/
def objRemove (o : List (String × String)) (k : String) : List (String × String) :=
  o.filter (fun p => p.1 != k)

/-- Property read `o[k]` / `getItem(k)`: `none` models `null`/absent. -/
def objGet (o : List (String × String)) (k : String) : Option String :=
  (o.find? (fun p => p.1 == k)).map Prod.snd

theorem objGet_eq_none_iff (o : List (String × String)) (k : String) :
    objGet o k = none ↔ ∀ p ∈ o, p.1 ≠ k := by
  simp [objGet, List.find?_eq_none]

theorem find?_filter_of_imp {α : Type} (l : List α) (p q : α → Bool)
    (h : ∀ x, p x = true → q x = true) :
    (l.filter q).find? p = l.find? p := by
  induction l with
  | nil => rfl
  | cons a t ih =>
    by_cases hpa : p a = true
    · rw [List.filter_cons_of_pos (h a hpa), List.find?_cons_of_pos _ hpa,
        List.find?_cons_of_pos _ hpa]
    · by_cases hqa : q a = true
      · rw [List.filter_cons_of_pos hqa, List.find?_cons_of_neg _ hpa,
          List.find?_cons_of_neg _ hpa]
        exact ih
      · rw [List.filter_cons_of_neg (by simpa using hqa), List.find?_cons_of_neg _ hpa]
        exact ih

theorem key_imp_of_ne {k k' : String} (h : k' ≠ k) :
    ∀ p : String × String, (p.1 == k') = true → (p.1 != k) = true := by
  intro p hp
  simp only [beq_iff_eq] at hp
  simp [bne_iff_ne, hp, h]

theorem objGet_objSet_self (o : List (String × String)) (k v : String) :
    objGet (objSet o k v) k = some v := by
  have h1 : (o.filter (fun p => p.1 != k)).find? (fun p => p.1 == k) = none := by
    rw [List.find?_eq_none]
    intro p hp
    have := List.of_mem_filter hp
    simpa using this
  simp [objSet, objGet, List.find?_append, h1]

theorem objGet_objSet_ne (o : List (String × String)) (k k' v : String)
    (h : k' ≠ k) : objGet (objSet o k v) k' = objGet o k' := by
  have h2 : (([(k, v)] : List (String × String)).find? (fun p => p.1 == k')) = none := by
    rw [List.find?_cons_of_neg _ (by simpa using Ne.symm h)]
    rfl
  rw [objSet, objGet, List.find?_append, find?_filter_of_imp _ _ _ (key_imp_of_ne h), h2,
    objGet]
  cases o.find? fun p => p.1 == k' <;> rfl

theorem objGet_objRemove_self (o : List (String × String)) (k : String) :
    objGet (objRemove o k) k = none := by
  rw [objGet_eq_none_iff]
  intro p hp
  have := List.of_mem_filter hp
  simpa using this

theorem objGet_objRemove_ne (o : List (String × String)) (k k' : String)
    (h : k' ≠ k) : objGet (objRemove o k) k' = objGet o k' := by
  rw [objRemove, objGet, find?_filter_of_imp _ _ _ (key_imp_of_ne h), objGet]

/-! ## Token management (services/api.ts)

`getToken` / `setToken` / `removeToken` read, write and remove the
`'auth_token'` entry of `localStorage`. -/

/-- `getToken`: `localStorage.getItem('auth_token')`. -/
def getToken (ls : List (String × String)) : Option String :=
  objGet ls "auth_token"

/-- `setToken`: `localStorage.setItem('auth_token', token)`. -/
def setToken (ls : List (String × String)) (token : String) : List (String × String) :=
  objSet ls "auth_token" token

/-- `removeToken`: `localStorage.removeItem('auth_token')`. -/
def removeToken (ls : List (String × String)) : List (String × String) :=
  objRemove ls "auth_token"

/-- The `User` record of `services/api.ts`. -/
structure User where
  id : Nat
  username : String
  email : String
  is_admin : Bool
  is_active : Bool
  email_verified : Bool
  profile_picture : Option String
  created_at : String
  deriving DecidableEq

/-- The `TokenResponse` record returned by `POST /auth/register` and
`POST /auth/login`. -/
structure TokenResponse where
  access_token : String
  token_type : String
  user : User
  deriving DecidableEq

/-- The in-memory auth state of `AuthProvider` (`AuthContext.tsx`):
the `user` and `token` `useState` cells. -/
structure AuthState where
  user : Option User
  token : Option String
  deriving DecidableEq

/-- `AuthAPI.register`, success path: `apiRequest('/auth/register', …)`
resolves with `resp`, then `setToken(response.access_token)` and the
response is returned. Result: new `localStorage`, the returned response,
and the list of network calls performed. -/
def AuthAPI_register (ls : List (String × String)) (resp : TokenResponse) :
    List (String × String) × TokenResponse × List String :=
  (setToken ls resp.access_token, resp, ["POST /auth/register"])

/-- `AuthProvider.register`, success path: `authAPI.register(userData)`
resolves with `resp`, then `setToken(response.access_token)` and
`setUser(response.user)` on the in-memory state. -/
def AuthProvider_register (ls : List (String × String)) (st : AuthState)
    (resp : TokenResponse) :
    List (String × String) × AuthState × List String :=
  let r := AuthAPI_register ls resp
  (r.1, { user := some r.2.1.user, token := some r.2.1.access_token }, r.2.2)

/-- C2: a successful `AuthAPI.register` stores the `access_token` of the
response — an immediately following `getToken()` returns exactly that
token — and `AuthContext.register` sets the authenticated user (and
in-memory token) to the same response's `user` and `access_token`, with
no separate login call: the only network call is the register call. -/
theorem c2_register_logs_in (ls : List (String × String)) (st : AuthState)
    (resp : TokenResponse) :
    getToken (AuthAPI_register ls resp).1 = some resp.access_token ∧
    (AuthAPI_register ls resp).2.1 = resp ∧
    (AuthProvider_register ls st resp).2.1.user = some resp.user ∧
    (AuthProvider_register ls st resp).2.1.token = some resp.access_token ∧
    getToken (AuthProvider_register ls st resp).1 = some resp.access_token ∧
    (AuthProvider_register ls st resp).2.2 = ["POST /auth/register"] := by
  refine ⟨?_, rfl, rfl, rfl, ?_, rfl⟩ <;>
    simpa [AuthAPI_register, AuthProvider_register, getToken, setToken] using
      objGet_objSet_self ls "auth_token" resp.access_token

/-- `AuthAPI.logout`: `removeToken()` only; no network call is made. -/
def AuthAPI_logout (ls : List (String × String)) :
    List (String × String) × List String :=
  (removeToken ls, [])

/-- `AuthProvider.logout`: `authAPI.logout()`, then `setToken(null)` and
`setUser(null)` on the in-memory state; no network call is made. -/
def AuthProvider_logout (ls : List (String × String)) (st : AuthState) :
    List (String × String) × AuthState × List String :=
  ((AuthAPI_logout ls).1, { user := none, token := none }, (AuthAPI_logout ls).2)

/-- C5: logout is purely local. `AuthAPI.logout` only removes the stored
token (`getToken` afterwards yields `none`, every other storage key is
untouched), `AuthContext.logout` additionally clears the in-memory user
and token, and neither performs any network request — the stored token
string itself is merely forgotten, never sent anywhere for revocation. -/
theorem c5_logout_local (ls : List (String × String)) (st : AuthState)
    (k : String) (h : k ≠ "auth_token") :
    getToken (AuthAPI_logout ls).1 = none ∧
    objGet (AuthAPI_logout ls).1 k = objGet ls k ∧
    (AuthAPI_logout ls).2 = [] ∧
    (AuthProvider_logout ls st).1 = removeToken ls ∧
    (AuthProvider_logout ls st).2.1 = { user := none, token := none } ∧
    (AuthProvider_logout ls st).2.2 = [] := by
  refine ⟨?_, ?_, rfl, rfl, rfl, rfl⟩
  · simpa [AuthAPI_logout, getToken, removeToken] using
      objGet_objRemove_self ls "auth_token"
  · simpa [AuthAPI_logout, removeToken] using
      objGet_objRemove_ne ls "auth_token" k h

/-- C5 witness: logging out of a storage holding a token and an unrelated
key removes only the token and performs no network call. -/
theorem c5_logout_local_witness :
    getToken (AuthAPI_logout [("auth_token", "tok"), ("theme", "dark")]).1 = none ∧
    objGet (AuthAPI_logout [("auth_token", "tok"), ("theme", "dark")]).1 "theme" =
      objGet [("auth_token", "tok"), ("theme", "dark")] "theme" ∧
    (AuthAPI_logout [("auth_token", "tok"), ("theme", "dark")]).2 = [] ∧
    (AuthProvider_logout [("auth_token", "tok"), ("theme", "dark")] ⟨none, none⟩).1 =
      removeToken [("auth_token", "tok"), ("theme", "dark")] ∧
    (AuthProvider_logout [("auth_token", "tok"), ("theme", "dark")] ⟨none, none⟩).2.1 =
      { user := none, token := none } ∧
    (AuthProvider_logout [("auth_token", "tok"), ("theme", "dark")] ⟨none, none⟩).2.2 = [] :=
  c5_logout_local [("auth_token", "tok"), ("theme", "dark")] ⟨none, none⟩ "theme"
    (by decide)

/-! ## apiRequest (services/api.ts)

`apiRequest` builds a headers object starting from
`{'Content-Type': 'application/json', ...options.headers}`, then, if the
stored token is truthy (`if (token)` — `null` and the empty string are
falsy), assigns `headers['Authorization'] = 'Bearer ' + token`. It then
performs exactly one `fetch`; a non-ok response makes it parse the error
body and throw, an ok response resolves with the parsed body. -/

/-- The spread `{'Content-Type': 'application/json', ...options.headers}`. -/
def spreadHeaders (optHeaders : List (String × String)) : List (String × String) :=
  optHeaders.foldl (fun acc p => objSet acc p.1 p.2)
    [("Content-Type", "application/json")]

/-- The headers object sent by `apiRequest`, given `options.headers` and
the result of `getToken()`. -/
def buildHeaders (optHeaders : List (String × String)) :
    Option String → List (String × String)
  | some t =>
    if t != "" then
      objSet (spreadHeaders optHeaders) "Authorization" ("Bearer " ++ t)
    else spreadHeaders optHeaders
  | none => spreadHeaders optHeaders

theorem objSet_keys_subset {o : List (String × String)} {k v : String}
    {p : String × String} (hp : p ∈ objSet o k v) : p ∈ o ∨ p = (k, v) := by
  rcases List.mem_append.mp hp with h | h
  · exact Or.inl (List.mem_of_mem_filter h)
  · right
    simpa using h

theorem spreadHeaders_no_key (opts : List (String × String)) (k : String)
    (hk : k ≠ "Content-Type") (ho : ∀ p ∈ opts, p.1 ≠ k) :
    objGet (spreadHeaders opts) k = none := by
  rw [spreadHeaders]
  have main : ∀ (l : List (String × String)) (base : List (String × String)),
      (∀ p ∈ base, p.1 ≠ k) → (∀ p ∈ l, p.1 ≠ k) →
      objGet (l.foldl (fun acc p => objSet acc p.1 p.2) base) k = none := by
    intro l
    induction l with
    | nil =>
      intro base hb _
      exact (objGet_eq_none_iff base k).mpr hb
    | cons q t ih =>
      intro base hb hl
      rw [List.foldl_cons]
      refine ih (objSet base q.1 q.2) ?_ ?_
      · intro p hp
        rcases objSet_keys_subset hp with h | h
        · exact hb p h
        · rw [h]
          exact hl q (List.mem_cons_self q t)
      · intro p hp
        exact hl p (List.mem_cons_of_mem q hp)
  refine main opts [("Content-Type", "application/json")] ?_ ho
  intro p hp
  rw [List.mem_singleton.mp hp]
  exact Ne.symm hk

/-- C3 counterexample: when `localStorage` holds the empty string,
`getToken()` returns `some ""` (not `null`), yet `if (token)` treats it
as falsy and no `Authorization` header is attached, contradicting the
claimed "Bearer " + token header for every non-null token. -/
theorem c3_auth_header_counterexample :
    getToken [("auth_token", "")] = some "" ∧
    objGet (buildHeaders [] (getToken [("auth_token", "")])) "Authorization" ≠
      some ("Bearer " ++ "") := by
  decide

/-- C3 (amended): for every request whose options carry no `Authorization`
entry (as is the case for every endpoint of `AuthAPI`, `TodoAPI` and
`AdminAPI`, which only ever set method and body): if `getToken()` returns
a non-empty token `t` the outgoing headers carry `Authorization` with
value exactly `"Bearer " ++ t`; if it returns `null` or the empty string,
no `Authorization` header is attached. -/
theorem c3_auth_header (opts : List (String × String)) (t : String)
    (ht : t ≠ "") (hopts : ∀ p ∈ opts, p.1 ≠ "Authorization") :
    objGet (buildHeaders opts (some t)) "Authorization" = some ("Bearer " ++ t) ∧
    objGet (buildHeaders opts none) "Authorization" = none ∧
    objGet (buildHeaders opts (some "")) "Authorization" = none := by
  have hnone : objGet (spreadHeaders opts) "Authorization" = none :=
    spreadHeaders_no_key opts "Authorization" (by decide) hopts
  refine ⟨?_, hnone, by simpa [buildHeaders] using hnone⟩
  rw [buildHeaders]
  rw [if_pos (by simpa using ht)]
  exact objGet_objSet_self _ _ _

/-- C3 witness: a request with one unrelated custom header and the stored
token "tok" carries exactly "Bearer tok", and carries no Authorization
header when the token is absent or empty. -/
theorem c3_auth_header_witness :
    objGet (buildHeaders [("X-Debug", "1")] (some "tok")) "Authorization" =
      some ("Bearer " ++ "tok") ∧
    objGet (buildHeaders [("X-Debug", "1")] none) "Authorization" = none ∧
    objGet (buildHeaders [("X-Debug", "1")] (some "")) "Authorization" = none :=
  c3_auth_header [("X-Debug", "1")] "tok" (by decide) (by decide)

/-! ## apiRequest error handling -/

/-- The fields of the `fetch` `Response` that `apiRequest` inspects. -/
structure HttpResponse where
  ok : Bool
  status : Nat
  statusText : String
  deriving DecidableEq

/-- The outcome of `response.json()`: either the promise rejects
(`failure` — the body is not JSON), or it resolves to a JSON value whose
`detail` property is absent/null (`json none`) or the string `d`
(`json (some d)`). -/
inductive BodyParse where
  | failure
  | json (detail : Option String)
  deriving DecidableEq

/-- JS truthiness of a possibly-absent string (`error.detail || …`):
absent/null and the empty string are falsy. -/
def jsTruthy : Option String → Bool
  | none => false
  | some s => s != ""

/-- The message of the `Error` thrown by `apiRequest` on a non-ok
response: `error.detail || 'HTTP ' + response.status` where `error` is
`await response.json().catch(() => ({ detail: response.statusText }))`. -/
def errorMessage (status : Nat) (statusText : String) : BodyParse → String
  | .failure =>
    if statusText != "" then statusText else "HTTP " ++ toString status
  | .json d =>
    match d with
    | some t => if t != "" then t else "HTTP " ++ toString status
    | none => "HTTP " ++ toString status

/-- Result of one `apiRequest` call: the promise either resolves with the
parsed body or rejects with a thrown `Error` message. -/
inductive ApiResult where
  | success (body : BodyParse)
  | thrown (message : String)
  deriving DecidableEq

/-- `apiRequest` after header construction: performs exactly one `fetch`
of `endpoint` (the returned list of performed calls), then either throws
(non-ok status) or resolves with the parsed body (ok status). -/
def apiRequest (endpoint : String) (resp : HttpResponse) (body : BodyParse) :
    List String × ApiResult :=
  ([endpoint],
    if resp.ok then .success body
    else .thrown (errorMessage resp.status resp.statusText body))

/-- C4 counterexample: a 500 response whose body is valid JSON with a
`detail` field holding the empty string is thrown with message
"HTTP 500", not with the body's `detail` field. -/
theorem c4_error_message_counterexample :
    errorMessage 500 "oops" (BodyParse.json (some "")) ≠ "" ∧
    errorMessage 500 "oops" (BodyParse.json (some "")) = "HTTP 500" := by
  decide

/-- C4 (amended): every `apiRequest` call performs exactly one fetch (no
internal retry), every non-ok response results in a thrown error (never a
success value), and the thrown message is the body's `detail` field when
the body parses as JSON with a non-empty string `detail`, the status text
when the body is not JSON and the status text is non-empty, and
`"HTTP " ++ status` in all remaining cases. -/
theorem c4_api_error_handling (endpoint : String) (resp : HttpResponse)
    (body : BodyParse) :
    (apiRequest endpoint resp body).1 = [endpoint] ∧
    (resp.ok = false →
      (apiRequest endpoint resp body).2 =
        .thrown (errorMessage resp.status resp.statusText body)) ∧
    (∀ b, (apiRequest endpoint resp body).2 = .success b → resp.ok = true) ∧
    (∀ t, t ≠ "" →
      errorMessage resp.status resp.statusText (.json (some t)) = t) ∧
    (resp.statusText ≠ "" →
      errorMessage resp.status resp.statusText .failure = resp.statusText) ∧
    (errorMessage resp.status resp.statusText (.json none) =
      "HTTP " ++ toString resp.status) ∧
    (errorMessage resp.status resp.statusText (.json (some "")) =
      "HTTP " ++ toString resp.status) ∧
    (resp.statusText = "" →
      errorMessage resp.status resp.statusText .failure =
        "HTTP " ++ toString resp.status) := by
  refine ⟨rfl, ?_, ?_, ?_, ?_, rfl, by simp [errorMessage], ?_⟩
  · intro hok
    simp [apiRequest, hok]
  · intro b hb
    by_contra hok
    rw [Bool.not_eq_true] at hok
    simp [apiRequest, hok] at hb
  · intro t ht
    simp [errorMessage, ht]
  · intro hst
    simp [errorMessage, hst]
  · intro hst
    simp [errorMessage, hst]

/-- C4 witness: a non-ok 404 with a JSON `detail` body is thrown with
that detail as message after exactly one fetch. -/
theorem c4_api_error_handling_witness :
    (apiRequest "/todos/7" ⟨false, 404, "Not Found"⟩
        (BodyParse.json (some "Todo not found"))).1 = ["/todos/7"] ∧
    (apiRequest "/todos/7" ⟨false, 404, "Not Found"⟩
        (BodyParse.json (some "Todo not found"))).2 =
      .thrown (errorMessage 404 "Not Found" (BodyParse.json (some "Todo not found"))) ∧
    errorMessage 404 "Not Found" (BodyParse.json (some "Todo not found")) =
      "Todo not found" := by
  have h := c4_api_error_handling "/todos/7" ⟨false, 404, "Not Found"⟩
    (BodyParse.json (some "Todo not found"))
  exact ⟨h.1, h.2.1 rfl, h.2.2.2.1 "Todo not found" (by decide)⟩

/-! ## TaskFormModal (TaskFormModal validate / handleSubmit)

The form state and the `validate` function building the `newErrors`
object. The only keys ever written are `title`, `category`, `startDate`
and `endDate`, so the errors object is a record of four optional
messages; `Object.keys(newErrors).length` is the number of present
fields. JS string `>` on the date inputs is the lexicographic order. -/

/-- Lexicographic comparison of character sequences: how JS compares two
strings with `<` / `>` (code-unit by code-unit, a strict prefix being
smaller). -/
def charListLt : List Char → List Char → Bool
  | [], [] => false
  | [], _ :: _ => true
  | _ :: _, [] => false
  | a :: as, b :: bs => if a < b then true else if b < a then false else charListLt as bs

/-- JS string comparison `a < b`. -/
def jsLtb (a b : String) : Bool :=
  charListLt a.data b.data

/-- JS string comparison `a <= b` (`!(b < a)`). -/
def jsLeb (a b : String) : Bool :=
  !(jsLtb b a)

theorem charListLt_irrefl (l : List Char) : charListLt l l = false := by
  induction l with
  | nil => rfl
  | cons a t ih => simp [charListLt, lt_irrefl, ih]

/-- JS `String.prototype.trim`: drops leading and trailing whitespace. -/
def jsTrim (s : String) : String :=
  ⟨(((s.data.dropWhile Char.isWhitespace).reverse).dropWhile
      Char.isWhitespace).reverse⟩

/-- The `formData` state of `TaskFormModal`. -/
structure TaskFormData where
  title : String
  description : String
  status : TaskStatus
  priority : TaskPriority
  startDate : String
  endDate : String
  category : String
  deriving DecidableEq

/-- The `newErrors` object built by `validate`. -/
structure FormErrors where
  title : Option String
  category : Option String
  startDate : Option String
  endDate : Option String
  deriving DecidableEq

/-- `TaskFormModal.validate`, error-object construction: each guard
assigns its message; the date-order guard overwrites any earlier
`endDate` message (`formData.startDate > formData.endDate` is
`f.endDate < f.startDate`). -/
def validateErrors (f : TaskFormData) : FormErrors :=
  let eTitle := if jsTrim f.title == "" then some "Title is required" else none
  let eCategory := if jsTrim f.category == "" then some "Category is required" else none
  let eStart := if f.startDate == "" then some "Start date is required" else none
  let eEnd0 := if f.endDate == "" then some "End date is required" else none
  let eEnd :=
    if f.startDate != "" && f.endDate != "" && jsLtb f.endDate f.startDate then
      some "End date must be after start date"
    else eEnd0
  ⟨eTitle, eCategory, eStart, eEnd⟩

/-- `Object.keys(newErrors).length`: the number of keys present. -/
def errorCount (e : FormErrors) : Nat :=
  (if e.title.isSome then 1 else 0) + (if e.category.isSome then 1 else 0) +
    (if e.startDate.isSome then 1 else 0) + (if e.endDate.isSome then 1 else 0)

/-- `validate`: true iff the errors object is empty. -/
def validate (f : TaskFormData) : Bool :=
  errorCount (validateErrors f) == 0

/-- `handleSubmit`: calls `onSave(formData)` iff `validate()` passes;
`some` is the saved form state, `none` means no save. -/
def handleSubmit (f : TaskFormData) : Option TaskFormData :=
  if validate f then some f else none

theorem errorCount_eq_zero (e : FormErrors) :
    errorCount e = 0 ↔
      e.title = none ∧ e.category = none ∧ e.startDate = none ∧ e.endDate = none := by
  obtain ⟨t, c, s, d⟩ := e
  cases t <;> cases c <;> cases s <;> cases d <;> simp [errorCount]

/-- C6: `handleSubmit` invokes `onSave` iff `validate()` passes, and
`validate` passes iff the trimmed title and category are non-empty, both
dates are non-empty, and `startDate ≤ endDate` in string order (equality
allowed); a form with both dates present and `endDate < startDate` gets
an `endDate` error and is never saved. -/
theorem c6_task_form_validation (f : TaskFormData) :
    (handleSubmit f = some f ↔ validate f = true) ∧
    (validate f = true ↔
      (jsTrim f.title ≠ "" ∧ jsTrim f.category ≠ "" ∧ f.startDate ≠ "" ∧
        f.endDate ≠ "" ∧ jsLeb f.startDate f.endDate = true)) ∧
    (f.startDate = f.endDate → jsLeb f.startDate f.endDate = true) ∧
    (f.startDate ≠ "" → f.endDate ≠ "" → jsLtb f.endDate f.startDate = true →
      (validateErrors f).endDate = some "End date must be after start date" ∧
      handleSubmit f = none) := by
  refine ⟨?_, ?_, ?_, ?_⟩
  · cases hv : validate f <;> simp [handleSubmit, hv]
  · rw [validate, beq_iff_eq, errorCount_eq_zero]
    by_cases h1 : jsTrim f.title = "" <;>
      by_cases h2 : jsTrim f.category = "" <;>
        by_cases h3 : f.startDate = "" <;>
          by_cases h4 : f.endDate = "" <;>
            by_cases h5 : jsLtb f.endDate f.startDate = true <;>
              simp [validateErrors, jsLeb, h1, h2, h3, h4, h5]
  · intro heq
    rw [heq, jsLeb, jsLtb, charListLt_irrefl]
    rfl
  · intro h3 h4 h5
    have hend : (validateErrors f).endDate = some "End date must be after start date" := by
      simp [validateErrors, h3, h4, h5]
    refine ⟨hend, ?_⟩
    have hne : errorCount (validateErrors f) ≠ 0 := by
      rw [Ne, errorCount_eq_zero]
      rintro ⟨-, -, -, hcontra⟩
      rw [hend] at hcontra
      exact Option.noConfusion hcontra
    simp [handleSubmit, validate, hne]

/-- C6 witness: a filled form with start 2024-03-02 and end 2024-03-01 is
rejected with an `endDate` error and not saved; swapping the dates makes
`validate` pass and `handleSubmit` save. -/
theorem c6_task_form_validation_witness :
    (validateErrors
        ⟨"Write report", "", .todo, .medium, "2024-03-02", "2024-03-01", "Work"⟩).endDate =
      some "End date must be after start date" ∧
    handleSubmit
        ⟨"Write report", "", .todo, .medium, "2024-03-02", "2024-03-01", "Work"⟩ = none ∧
    validate ⟨"Write report", "", .todo, .medium, "2024-03-01", "2024-03-02", "Work"⟩ =
      true := by
  have h1 := (c6_task_form_validation
    ⟨"Write report", "", .todo, .medium, "2024-03-02", "2024-03-01", "Work"⟩).2.2.2
    (by decide) (by decide) (by decide)
  have h2 := (c6_task_form_validation
    ⟨"Write report", "", .todo, .medium, "2024-03-01", "2024-03-02", "Work"⟩).2.1.mpr
    (by refine ⟨by decide, by decide, by decide, by decide, by decide⟩)
  exact ⟨h1.1, h1.2, h2⟩

/-! ## Task records and HomePage statistics

`Task` is the frontend record of `App.tsx`. At runtime the `status` and
`priority` fields hold whatever strings the backend sent (`as TaskStatus`
is an unchecked cast), so they are modelled as strings; `HomePage`
compares them against the literal enumeration values. -/

/-- The frontend `Task` record (runtime view; `as`-casts are erased). -/
structure Task where
  id : String
  title : String
  description : String
  status : String
  priority : String
  startDate : String
  endDate : String
  createdAt : String
  category : String
  deriving DecidableEq

/-- The four status strings of the `TaskStatus` enumeration. -/
def statusStrings : List String :=
  ["todo", "in-progress", "done", "blocked"]

/-- One entry of `HomePage.statusCounts`:
`tasks.filter(t => t.status === s).length`. -/
def statusCount (tasks : List Task) (s : String) : Nat :=
  (tasks.filter (fun t => t.status == s)).length

/-- `HomePage.completionRate`:
`totalTasks > 0 ? Math.round((statusCounts.done / totalTasks) * 100) : 0`,
with `Math.round` as the exact half-up rounding of the rational value. -/
def completionRate (tasks : List Task) : Int :=
  if 0 < tasks.length then
    round (((statusCount tasks "done" : ℚ) / (tasks.length : ℚ)) * 100)
  else 0

theorem statusCount_cons (t : Task) (ts : List Task) (s : String) :
    statusCount (t :: ts) s = statusCount ts s + (if t.status = s then 1 else 0) := by
  by_cases hs : t.status = s <;> simp [statusCount, List.filter_cons, hs]

theorem statusCounts_partition (tasks : List Task)
    (h : ∀ t ∈ tasks, t.status ∈ statusStrings) :
    statusCount tasks "todo" + statusCount tasks "in-progress" +
      statusCount tasks "done" + statusCount tasks "blocked" = tasks.length := by
  induction tasks with
  | nil => rfl
  | cons t ts ih =>
    have ht : t.status ∈ statusStrings := h t (List.mem_cons_self t ts)
    have ih' := ih fun x hx => h x (List.mem_cons_of_mem t hx)
    rw [statusCount_cons, statusCount_cons, statusCount_cons, statusCount_cons,
      List.length_cons]
    simp only [statusStrings, List.mem_cons, List.not_mem_nil, or_false] at ht
    rcases ht with h1 | h1 | h1 | h1 <;> simp [h1] <;> omega

/-- C7: when every task's status lies in the four-value enumeration the
four `HomePage` status counts partition the list (they sum to its
length), and `completionRate` is the rounded percentage
`round(100 * done / total)` for a non-empty list and exactly `0` for the
empty list — the division is always guarded by `totalTasks > 0`. -/
theorem c7_homePage_stats (tasks : List Task)
    (h : ∀ t ∈ tasks, t.status ∈ statusStrings) :
    statusCount tasks "todo" + statusCount tasks "in-progress" +
      statusCount tasks "done" + statusCount tasks "blocked" = tasks.length ∧
    (0 < tasks.length →
      completionRate tasks =
        round ((100 * (statusCount tasks "done" : ℚ)) / (tasks.length : ℚ))) ∧
    (tasks = [] → completionRate tasks = 0) := by
  refine ⟨statusCounts_partition tasks h, ?_, ?_⟩
  · intro hlen
    rw [completionRate, if_pos hlen]
    congr 1
    ring
  · intro hnil
    rw [hnil]
    rfl

/-- A concrete completed task. -/
def sampleDoneTask : Task :=
  { id := "1", title := "Report", description := "", status := "done",
    priority := "high", startDate := "2024-01-01", endDate := "2024-01-02",
    createdAt := "2024-01-01", category := "Work" }

/-- A concrete open task. -/
def sampleTodoTask : Task :=
  { id := "2", title := "Slides", description := "", status := "todo",
    priority := "low", startDate := "2024-01-01", endDate := "2024-01-03",
    createdAt := "2024-01-01", category := "Work" }

/-- C7 witness: for one done and one open task the counts sum to 2 and
the completion rate is the rounded percentage. -/
theorem c7_homePage_stats_witness :
    statusCount [sampleDoneTask, sampleTodoTask] "todo" +
        statusCount [sampleDoneTask, sampleTodoTask] "in-progress" +
        statusCount [sampleDoneTask, sampleTodoTask] "done" +
        statusCount [sampleDoneTask, sampleTodoTask] "blocked" =
      List.length [sampleDoneTask, sampleTodoTask] ∧
    completionRate [sampleDoneTask, sampleTodoTask] =
      round ((100 * (statusCount [sampleDoneTask, sampleTodoTask] "done" : ℚ)) /
        (List.length [sampleDoneTask, sampleTodoTask] : ℚ)) :=
  ⟨(c7_homePage_stats [sampleDoneTask, sampleTodoTask] (by decide)).1,
    (c7_homePage_stats [sampleDoneTask, sampleTodoTask] (by decide)).2.1 (by decide)⟩

/-! ## Backend Todo records and the App.tsx conversions -/

/-- The backend `Todo` record of `services/api.ts`. The backend's
`description` column is nullable, so the field is modelled as
`Option String` (`none` is JSON `null`). -/
structure Todo where
  id : Nat
  title : String
  description : Option String
  completed : Bool
  status : String
  priority : String
  start_date : String
  end_date : String
  category : String
  created_at : String
  user_id : Nat
  deriving DecidableEq

/-- JS `x || d` for a nullable string `x`: `null` and `""` are falsy. -/
def jsOrElse (x : Option String) (d : String) : String :=
  match x with
  | none => d
  | some s => if s != "" then s else d

/-- `todoToTask` (App.tsx): converts a backend `Todo` to a frontend
`Task`; `description` is `todo.description || ''`. -/
def todoToTask (todo : Todo) : Task :=
  { id := toString todo.id
    title := todo.title
    description := jsOrElse todo.description ""
    status := todo.status
    priority := todo.priority
    startDate := todo.start_date
    endDate := todo.end_date
    createdAt := todo.created_at
    category := todo.category }

/-- The `TodoCreate` payload of `services/api.ts` (all fields but `title`
optional; absent fields are `none`). -/
structure TodoCreate where
  title : String
  description : Option String
  completed : Option Bool
  status : Option String
  priority : Option String
  start_date : Option String
  end_date : Option String
  category : Option String
  deriving DecidableEq

/-- `taskToTodoCreate` (App.tsx): converts a frontend task (sans id and
createdAt, which it does not read) to a creation payload. -/
def taskToTodoCreate (task : Task) : TodoCreate :=
  { title := task.title
    description := some task.description
    completed := none
    status := some task.status
    priority := some task.priority
    start_date := some task.startDate
    end_date := some task.endDate
    category := some task.category }

/-- C9: for every backend record `t`, `taskToTodoCreate (todoToTask t)`
has `t`'s title, status, priority, start date, end date and category
unchanged; the description survives when non-null and non-empty and a
null description becomes the empty string. -/
theorem c9_todo_roundtrip (t : Todo) :
    (taskToTodoCreate (todoToTask t)).title = t.title ∧
    (taskToTodoCreate (todoToTask t)).status = some t.status ∧
    (taskToTodoCreate (todoToTask t)).priority = some t.priority ∧
    (taskToTodoCreate (todoToTask t)).start_date = some t.start_date ∧
    (taskToTodoCreate (todoToTask t)).end_date = some t.end_date ∧
    (taskToTodoCreate (todoToTask t)).category = some t.category ∧
    (∀ d, t.description = some d → d ≠ "" →
      (taskToTodoCreate (todoToTask t)).description = some d) ∧
    (t.description = none →
      (taskToTodoCreate (todoToTask t)).description = some "") := by
  refine ⟨rfl, rfl, rfl, rfl, rfl, rfl, ?_, ?_⟩
  · intro d hd hne
    simp [taskToTodoCreate, todoToTask, jsOrElse, hd, hne]
  · intro hd
    simp [taskToTodoCreate, todoToTask, jsOrElse, hd]

/-- A concrete backend record with a non-empty description. -/
def sampleTodo : Todo :=
  { id := 7, title := "Report", description := some "quarterly",
    completed := false, status := "done", priority := "high",
    start_date := "2024-01-01", end_date := "2024-01-02",
    category := "Work", created_at := "2024-01-01", user_id := 3 }

/-- A concrete backend record with a null description. -/
def sampleTodoNullDesc : Todo :=
  { sampleTodo with id := 8, description := none }

/-- C9 witness: the round trip preserves the non-null description of one
record and maps the null description of another to the empty string. -/
theorem c9_todo_roundtrip_witness :
    (taskToTodoCreate (todoToTask sampleTodo)).description = some "quarterly" ∧
    (taskToTodoCreate (todoToTask sampleTodoNullDesc)).description = some "" ∧
    (taskToTodoCreate (todoToTask sampleTodo)).title = sampleTodo.title :=
  ⟨(c9_todo_roundtrip sampleTodo).2.2.2.2.2.2.1 "quarterly" (by decide) (by decide),
    (c9_todo_roundtrip sampleTodoNullDesc).2.2.2.2.2.2.2 (by decide),
    (c9_todo_roundtrip sampleTodo).1⟩

/-! ## App.tsx task-list handlers (success paths)

On success `deleteTask` sets the list to
`tasks.filter(task => task.id !== id)` and `updateTask` sets it to
`tasks.map(task => task.id === id ? todoToTask(updatedTodo) : task)`. -/

/-- `App.deleteTask`, list update of the success path. -/
def deleteTask (tasks : List Task) (id : String) : List Task :=
  tasks.filter (fun t => t.id != id)

/-- `App.updateTask`, list update of the success path; `updatedTodo` is
the todo returned by the server. -/
def updateTask (tasks : List Task) (id : String) (updatedTodo : Todo) : List Task :=
  tasks.map (fun t => if t.id == id then todoToTask updatedTodo else t)

/-- C10: a successful `deleteTask id` removes exactly the entries whose
id matches — the result is a sublist of the input (order preserved), no
kept entry has the deleted id, and every non-matching entry is kept with
its multiplicity; a successful `updateTask id u` keeps the length and
replaces exactly the matching entries by the conversion of the server's
todo, every other entry being unchanged in place. -/
theorem c10_local_list_frame (tasks : List Task) (id : String) (u : Todo) :
    (deleteTask tasks id).Sublist tasks ∧
    (∀ t ∈ deleteTask tasks id, t.id ≠ id) ∧
    (∀ t ∈ tasks, t.id ≠ id → t ∈ deleteTask tasks id) ∧
    (∀ t : Task, t.id ≠ id → (deleteTask tasks id).count t = tasks.count t) ∧
    (updateTask tasks id u).length = tasks.length ∧
    List.Forall₂ (fun a b => (a.id = id → b = todoToTask u) ∧ (a.id ≠ id → b = a))
      tasks (updateTask tasks id u) := by
  refine ⟨List.filter_sublist tasks, ?_, ?_, ?_, by simp [updateTask], ?_⟩
  · intro t ht
    have := List.of_mem_filter ht
    simpa using this
  · intro t ht hne
    exact List.mem_filter.mpr ⟨ht, by simpa using hne⟩
  · intro t ht
    induction tasks with
    | nil => rfl
    | cons x xs ih =>
      by_cases hx : x.id = id
      · have hxt : t ≠ x := fun he => ht (he ▸ hx)
        rw [deleteTask] at ih ⊢
        rw [List.filter_cons_of_neg (by simpa using hx), List.count_cons]
        simp [Ne.symm hxt, ih]
      · rw [deleteTask] at ih ⊢
        rw [List.filter_cons_of_pos (by simpa using hx), List.count_cons,
          List.count_cons, ih]
  · induction tasks with
    | nil => exact List.Forall₂.nil
    | cons x xs ih =>
      rw [updateTask] at ih ⊢
      rw [List.map_cons]
      refine List.Forall₂.cons ?_ ih
      constructor
      · intro hx
        simp [hx]
      · intro hx
        simp [hx]

/-- C10 witness: deleting id "1" from a two-task list keeps the other
task with its count, and updating id "1" replaces only that entry. -/
theorem c10_local_list_frame_witness :
    sampleTodoTask ∈ deleteTask [sampleDoneTask, sampleTodoTask] "1" ∧
    (deleteTask [sampleDoneTask, sampleTodoTask] "1").count sampleTodoTask =
      List.count sampleTodoTask [sampleDoneTask, sampleTodoTask] ∧
    (updateTask [sampleDoneTask, sampleTodoTask] "1" sampleTodo).length =
      List.length [sampleDoneTask, sampleTodoTask] := by
  have h := c10_local_list_frame [sampleDoneTask, sampleTodoTask] "1" sampleTodo
  exact ⟨h.2.2.1 sampleTodoTask (by decide) (by decide),
    h.2.2.2.1 sampleTodoTask (by decide), h.2.2.2.2.1⟩

end TaskFlow
